import Mathlib

/-
Verification of the CMP (RFC 4210) client/server core.

Shallow embedding of the protocol engine:
 - the client-side receive validation and transaction drivers from cmp_ses.c
   (send_receive_check, pollForResponse, cert_response, CMP_doRevocationRequestSeq),
 - the PKIStatusInfo model from cmp_status.c
   (ossl_cmp_asn1_get_int, ossl_cmp_pkisi_get_pkistatus, ossl_cmp_statusinfo_new),
 - the mock responder from cmp_server.c (process_cert_request, process_certConf).

ASN.1/DER, X.509 crypto and the transport are external seams; they are modelled
as explicit parameters (e.g. the outcome of CMP_validate_msg, the certificate
hash function) or as plain data (octet strings as lists of bytes).
-/

/-! ## Body type constants (V_CMP_PKIBODY_* / OSSL_CMP_PKIBODY_*) -/

def V_CMP_PKIBODY_IR : Nat := 0

def V_CMP_PKIBODY_IP : Nat := 1

def V_CMP_PKIBODY_CR : Nat := 2

def V_CMP_PKIBODY_CP : Nat := 3

def V_CMP_PKIBODY_P10CR : Nat := 4

def V_CMP_PKIBODY_KUR : Nat := 7

def V_CMP_PKIBODY_KUP : Nat := 8

def V_CMP_PKIBODY_RR : Nat := 11

def V_CMP_PKIBODY_RP : Nat := 12

def V_CMP_PKIBODY_PKICONF : Nat := 19

def V_CMP_PKIBODY_GENM : Nat := 21

def V_CMP_PKIBODY_GENP : Nat := 22

def V_CMP_PKIBODY_ERROR : Nat := 23

def V_CMP_PKIBODY_CERTCONF : Nat := 24

def V_CMP_PKIBODY_POLLREQ : Nat := 25

def V_CMP_PKIBODY_POLLREP : Nat := 26

/-! ## PKIStatus values (CMP_PKISTATUS_* / OSSL_CMP_PKISTATUS_*) -/

def CMP_PKISTATUS_accepted : Int := 0

def CMP_PKISTATUS_grantedWithMods : Int := 1

def CMP_PKISTATUS_rejection : Int := 2

def CMP_PKISTATUS_waiting : Int := 3

def CMP_PKISTATUS_revocationWarning : Int := 4

def CMP_PKISTATUS_revocationNotification : Int := 5

def CMP_PKISTATUS_keyUpdateWarning : Int := 6

def OSSL_CMP_PKIFAILUREINFO_badPOP : Nat := 9

def OSSL_CMP_PKIFAILUREINFO_MAX : Nat := 26

def OSSL_CMP_CERTREQID : Int := 0

def INT_MIN : Int := -2147483648

def INT_MAX : Int := 2147483647

/-! ## Error taxonomy (the CMP_R_* reason codes raised by the modelled code) -/

inductive CMPerror where
  | ErrorValidatingProtection
  | NoncesDoNotMatch
  | TransactionIDUnmatched
  | PkibodyError
  | UnexpectedPKIStatus
  | UnknownPKIStatus
  | UnexpectedPKIBody
  | CertReqMsgNotFound
  | UnexpectedRequestID
  | WrongCertHash
  | ErrorProcessingMsg
deriving DecidableEq, Repr

/-! ## ASN.1 integer model

An `ASN1_INTEGER *` is either the NULL pointer, an integer that
`ASN1_INTEGER_get_int64` cannot decode (does not fit in int64), or a decoded
int64 value. -/

inductive ASN1IntegerM where
  | null
  | undecodable
  | val (v : Int)
deriving DecidableEq, Repr

/-- `ASN1_INTEGER_get_int64`: fails (returns 0) on NULL or an undecodable
integer, else yields the decoded value. -/
def ASN1_INTEGER_get_int64 : ASN1IntegerM → Option Int
  | ASN1IntegerM.null => none
  | ASN1IntegerM.undecodable => none
  | ASN1IntegerM.val v => some v

/-- `ossl_cmp_asn1_get_int` (cmp_status.c): get ASN.1 encoded integer,
return -1 on error; values outside the int range are errors too. -/
def ossl_cmp_asn1_get_int (a : ASN1IntegerM) : Int :=
  match ASN1_INTEGER_get_int64 a with
  | none => -1
  | some res =>
    if res < INT_MIN then -1
    else if res > INT_MAX then -1
    else res

/-! ## PKIStatusInfo model -/

structure OSSL_CMP_PKISI where
  status : ASN1IntegerM
  failInfo : Option Nat
  statusString : List String
deriving DecidableEq, Repr

/-- `ossl_cmp_pkisi_get_pkistatus` (cmp_status.c): -1 when `si` or its status
field is NULL, else `ossl_cmp_asn1_get_int` of the status. -/
def ossl_cmp_pkisi_get_pkistatus : Option OSSL_CMP_PKISI → Int
  | none => -1
  | some si =>
    match si.status with
    | ASN1IntegerM.null => -1
    | st => ossl_cmp_asn1_get_int st

/-- `ossl_cmp_statusinfo_new` (cmp_status.c): builds a PKIStatusInfo.  The
text, when given, becomes the single statusString entry.  The loop over
failure bits 0..`OSSL_CMP_PKIFAILUREINFO_MAX` allocates `failInfo` only when
some of those bits is set in `fail_info`, and copies exactly those bits. -/
def ossl_cmp_statusinfo_new (status : Int) (fail_info : Int)
    (text : Option String) : OSSL_CMP_PKISI :=
  let bits : Nat := (fail_info % 2 ^ (OSSL_CMP_PKIFAILUREINFO_MAX + 1)).toNat
  { status := ASN1IntegerM.val status
    failInfo := if bits = 0 then none else some bits
    statusString := match text with | none => [] | some t => [t] }

/-! ## Client-side message and context model (cmp_ses.c)

Octet strings (nonces, transaction ids) are byte lists; the received message
carries its body type and, for response bodies holding PKIStatus lists
(RP, IP/CP/KUP), the status of the first entry as the `_PKIStatus_get`
helpers at index 0 would return it. -/

structure PKIHeaderM where
  protectionAlg : Bool
  senderNonce : Option (List Nat)
  recipNonce : Option (List Nat)
  transactionID : Option (List Nat)
  generalInfo : List Nat
deriving DecidableEq, Repr

structure RecvMsg where
  header : PKIHeaderM
  bodyType : Nat
  status0 : Int
deriving DecidableEq, Repr

structure CMPCtxM where
  unprotectedErrors : Bool
  disableConfirm : Bool
  transactionID : Option (List Nat)
  recipNonce : Option (List Nat)
deriving DecidableEq, Repr

/-- Modelled from the spec: the implicit-confirm ITAV object identifier.
The generalInfo field is modelled as the list of ITAV OIDs it carries. -/
def NID_id_it_implicitConfirm : Nat := 784

/-- Modelled from the spec: `check_implicitConfirm(hdr)` returns true iff
`generalInfo` contains the implicit-confirm ITAV (its source, cmp_lib.c /
cmp_hdr.c, is not part of the provided sources). -/
def CMP_PKIMESSAGE_check_implicitConfirm (m : RecvMsg) : Bool :=
  m.header.generalInfo.contains NID_id_it_implicitConfirm

/-- The unprotected-message exception test of `send_receive_check`
(cmp_ses.c lines 204-230): with `ctx->unprotectedErrors` set, an ERROR body,
a PKICONF body, an RP body whose first status is rejection, or an expected
IP/CP/KUP body whose first status is rejection may come unprotected. -/
def unprotectedExceptionClient (ctx : CMPCtxM) (rep : RecvMsg)
    (type_rep : Nat) : Bool :=
  ctx.unprotectedErrors &&
    ((rep.bodyType == V_CMP_PKIBODY_ERROR) ||
     (rep.bodyType == V_CMP_PKIBODY_RP &&
       rep.status0 == CMP_PKISTATUS_rejection) ||
     (rep.bodyType == V_CMP_PKIBODY_PKICONF) ||
     (rep.bodyType == type_rep &&
       (rep.bodyType == V_CMP_PKIBODY_IP || rep.bodyType == V_CMP_PKIBODY_CP ||
        rep.bodyType == V_CMP_PKIBODY_KUP) &&
       rep.status0 == CMP_PKISTATUS_rejection))

/-- The expected-body-type check of `send_receive_check` (cmp_ses.c lines
252-262) followed by the nonce capture (line 266): on success the peer's
senderNonce is stored as `ctx.recipNonce` for the next outbound message. -/
def sendReceiveCheckBody (ctx : CMPCtxM) (rep : RecvMsg) (type_rep : Nat) :
    Except CMPerror CMPCtxM :=
  if rep.bodyType ≠ type_rep ∧
      ¬(type_rep = V_CMP_PKIBODY_POLLREP ∧
        (rep.bodyType = V_CMP_PKIBODY_IP ∨ rep.bodyType = V_CMP_PKIBODY_CP ∨
         rep.bodyType = V_CMP_PKIBODY_KUP)) then
    Except.error CMPerror.PkibodyError
  else
    Except.ok { ctx with recipNonce := rep.header.senderNonce }

/-- The transactionID comparison of `send_receive_check` (cmp_ses.c lines
245-250). -/
def sendReceiveCheckTid (ctx : CMPCtxM) (rep : RecvMsg) (type_rep : Nat) :
    Except CMPerror CMPCtxM :=
  match ctx.transactionID with
  | some tid =>
    if rep.header.transactionID ≠ some tid then
      Except.error CMPerror.TransactionIDUnmatched
    else sendReceiveCheckBody ctx rep type_rep
  | none => sendReceiveCheckBody ctx rep type_rep

/-- The nonce comparison of `send_receive_check` (cmp_ses.c lines 237-243):
when the request carried a senderNonce, the response's recipNonce must be
present and equal to it. -/
def sendReceiveCheckRest (ctx : CMPCtxM) (reqSenderNonce : Option (List Nat))
    (rep : RecvMsg) (type_rep : Nat) : Except CMPerror CMPCtxM :=
  match reqSenderNonce with
  | some sn =>
    if rep.header.recipNonce ≠ some sn then
      Except.error CMPerror.NoncesDoNotMatch
    else sendReceiveCheckTid ctx rep type_rep
  | none => sendReceiveCheckTid ctx rep type_rep

/-- `send_receive_check` (cmp_ses.c lines 183-269), from the point where the
response has been received.  `validOk` is the outcome of the crypto seam
`CMP_validate_msg`; `reqSenderNonce` is the sent request's senderNonce;
`type_rep` is the expected response body type. -/
def send_receive_check (ctx : CMPCtxM) (reqSenderNonce : Option (List Nat))
    (validOk : Bool) (rep : RecvMsg) (type_rep : Nat) :
    Except CMPerror CMPCtxM :=
  if rep.header.protectionAlg then
    if validOk then sendReceiveCheckRest ctx reqSenderNonce rep type_rep
    else Except.error CMPerror.ErrorValidatingProtection
  else
    if unprotectedExceptionClient ctx rep type_rep then
      sendReceiveCheckRest ctx reqSenderNonce rep type_rep
    else Except.error CMPerror.ErrorValidatingProtection

/-! ## Revocation transaction status mapping (cmp_ses.c lines 523-581) -/

/-- The PKIStatus switch of `CMP_doRevocationRequestSeq`: accepted,
grantedWithMods, rejection, revocationWarning and revocationNotification
fall through to `result = pkiStatus + 1`; waiting and keyUpdateWarning raise
UNEXPECTED_PKISTATUS; anything else raises UNKNOWN_PKISTATUS. -/
def CMP_doRevocationRequestSeq_statusMap (pkiStatus : Int) :
    Except CMPerror Int :=
  if pkiStatus = CMP_PKISTATUS_accepted ∨
      pkiStatus = CMP_PKISTATUS_grantedWithMods ∨
      pkiStatus = CMP_PKISTATUS_rejection ∨
      pkiStatus = CMP_PKISTATUS_revocationWarning ∨
      pkiStatus = CMP_PKISTATUS_revocationNotification then
    Except.ok (pkiStatus + 1)
  else if pkiStatus = CMP_PKISTATUS_waiting ∨
      pkiStatus = CMP_PKISTATUS_keyUpdateWarning then
    Except.error CMPerror.UnexpectedPKIStatus
  else
    Except.error CMPerror.UnknownPKIStatus

/-! ## Polling loop (cmp_ses.c lines 287-349)

The transfer seam is modelled by the trace of replies the server produces for
the successive PollReq messages: each loop iteration consumes one reply.  The
instrumented result records whether a final response was obtained and the
list of sleep durations performed. -/

inductive PollReply where
  | pollRep (checkAfter : Int)
  | finalResp
deriving DecidableEq, Repr

/-- The loop body of `pollForResponse`: `maxTimeLeft` starts at
`ctx->maxPollTime`; a received pollRep makes the client sleep `checkAfter`
seconds, except that with a nonzero `maxPollTime` the budget is decremented,
a sleep that would overshoot is truncated to the remaining budget (setting it
to 0), and a pollRep arriving with budget 0 is a timeout error. -/
def pollForResponse_loop (maxPollTime : Int) :
    Int → List PollReply → Bool × List Int
  | _, [] => (false, [])
  | _, PollReply.finalResp :: _ => (true, [])
  | maxTimeLeft, PollReply.pollRep checkAfter :: rest =>
    if maxPollTime ≠ 0 then
      if maxTimeLeft = 0 then (false, [])
      else if maxTimeLeft > checkAfter then
        ((pollForResponse_loop maxPollTime (maxTimeLeft - checkAfter) rest).1,
         checkAfter ::
           (pollForResponse_loop maxPollTime (maxTimeLeft - checkAfter) rest).2)
      else
        ((pollForResponse_loop maxPollTime 0 rest).1,
         maxTimeLeft :: (pollForResponse_loop maxPollTime 0 rest).2)
    else
      ((pollForResponse_loop maxPollTime maxTimeLeft rest).1,
       checkAfter :: (pollForResponse_loop maxPollTime maxTimeLeft rest).2)

/-- `pollForResponse` run against a trace of server replies. -/
def pollForResponse (maxPollTime : Int) (replies : List PollReply) :
    Bool × List Int :=
  pollForResponse_loop maxPollTime maxPollTime replies

/-- The raw checkAfter amounts of a trace, up to the first final response:
what the client sleeps when the total timeout is disabled. -/
def rawCheckAfters : List PollReply → List Int
  | [] => []
  | PollReply.finalResp :: _ => []
  | PollReply.pollRep c :: rest => c :: rawCheckAfters rest

/-- Whether a trace reaches a final response at all. -/
def rawOutcome : List PollReply → Bool
  | [] => false
  | PollReply.finalResp :: _ => true
  | PollReply.pollRep _ :: rest => rawOutcome rest

/-! ## Certificate response handling (cmp_ses.c lines 419-459) -/

/-- `cert_response`: after the status of the first CertResponse has been
saved, a `waiting` status makes the client poll (the poll outcome is the
`pollResult` seam, `none` meaning polling failed); then the certificate is
extracted (`extractCert` seam for `CMP_CERTREPMESSAGE_get_certificate`), and
a certConf/PKIconf exchange (outcome `sendCertConfOk`) is performed exactly
when neither `ctx->disableConfirm` is set nor the response carries the
implicit-confirm ITAV.  The result records whether certConf was sent and the
obtained certificate. -/
def cert_response (ctx : CMPCtxM) (resp : RecvMsg) (pollResult : Option RecvMsg)
    (extractCert : RecvMsg → Option Nat) (sendCertConfOk : Bool) :
    Option (Bool × Nat) :=
  let finalResp :=
    if resp.status0 = CMP_PKISTATUS_waiting then pollResult else some resp
  match finalResp with
  | none => none
  | some r =>
    match extractCert r with
    | none => none
    | some cert =>
      if !ctx.disableConfirm && !CMP_PKIMESSAGE_check_implicitConfirm r then
        if sendCertConfOk then some (true, cert) else none
      else some (false, cert)

/-! ## Server responder model (cmp_server.c) -/

structure ReqMsg where
  bodyType : Nat
  implicitConfirm : Bool
  crmCertReqId : Option Int
deriving DecidableEq, Repr

structure SrvCtxM where
  pkiStatusOut : OSSL_CMP_PKISI
  certOut : Option Nat
  chainOut : List Nat
  caPubsOut : List Nat
  certReq : Option ReqMsg
  certReqId : Int
  pollCount : Nat
  checkAfterTime : Int
  grantImplicitConfirm : Bool
  implicitConfirmGranted : Bool
  sendError : Bool
deriving DecidableEq, Repr

structure CertRepOut where
  bodytype : Nat
  certReqId : Int
  si : OSSL_CMP_PKISI
  certOut : Option Nat
  chainOut : List Nat
  caPubs : List Nat
deriving DecidableEq, Repr

/-- `process_cert_request` (cmp_server.c lines 216-298).  `popoOk` is the
outcome of the `ossl_cmp_verify_popo` seam.  `crmCertReqId` models the
certReqId of the first CRMF message (`none` when there is none).  On failure
(`none`) the server reports an error; otherwise the updated server context
and the data of the produced ip/cp/kup are returned. -/
def process_cert_request (srv : SrvCtxM) (certReq : ReqMsg) (popoOk : Bool) :
    Option (SrvCtxM × CertRepOut) :=
  let bt :=
    if certReq.bodyType = V_CMP_PKIBODY_P10CR ∨
        certReq.bodyType = V_CMP_PKIBODY_CR then some V_CMP_PKIBODY_CP
    else if certReq.bodyType = V_CMP_PKIBODY_IR then some V_CMP_PKIBODY_IP
    else if certReq.bodyType = V_CMP_PKIBODY_KUR then some V_CMP_PKIBODY_KUP
    else none
  match bt with
  | none => none
  | some bodytype =>
    let rid? :=
      if certReq.bodyType = V_CMP_PKIBODY_P10CR then some OSSL_CMP_CERTREQID
      else certReq.crmCertReqId
    match rid? with
    | none => none
    | some rid =>
      let srv1 := { srv with certReqId := rid }
      if !popoOk then
        some (srv1,
          { bodytype := bodytype, certReqId := rid
            si := ossl_cmp_statusinfo_new CMP_PKISTATUS_rejection
              (2 ^ OSSL_CMP_PKIFAILUREINFO_badPOP) none
            certOut := none, chainOut := [], caPubs := [] })
      else if srv1.pollCount > 0 then
        let srv2 := { srv1 with
          pollCount := srv1.pollCount - 1
          certReq := some certReq }
        some (srv2,
          { bodytype := bodytype, certReqId := rid
            si := ossl_cmp_statusinfo_new CMP_PKISTATUS_waiting
              OSSL_CMP_CERTREQID none
            certOut := none, chainOut := [], caPubs := [] })
      else
        let srv2 :=
          if certReq.implicitConfirm ∧ srv1.grantImplicitConfirm then
            { srv1 with implicitConfirmGranted := true }
          else srv1
        some (srv2,
          { bodytype := bodytype, certReqId := rid
            si := srv1.pkiStatusOut
            certOut := srv1.certOut, chainOut := srv1.chainOut
            caPubs := srv1.caPubsOut })

/-- A CertStatus entry of a certConf body: the echoed certReqId (as an
ASN.1 integer), the client's hash of the certificate, and an optional
PKIStatusInfo. -/
structure CertStatusM where
  certReqId : ASN1IntegerM
  certHash : Nat
  statusInfo : Option OSSL_CMP_PKISI
deriving DecidableEq, Repr

/-- `process_certConf` (cmp_server.c lines 339-397).  `hash` is the
`ossl_cmp_certstatus_set_certHash` seam recomputing the hash over the
server's `certOut` (`none` when recomputation fails).  An empty CertStatus
list (client rejected the certificate) is only logged; a present entry must
echo the stored certReqId and the hash of `certOut`.  Success yields the
PKICONF body type. -/
def process_certConf (srv : SrvCtxM) (hash : Option Nat → Option Nat)
    (certConf : List CertStatusM) : Except CMPerror Nat :=
  match certConf with
  | [] => Except.ok V_CMP_PKIBODY_PKICONF
  | status :: _ =>
    if ossl_cmp_asn1_get_int status.certReqId ≠ srv.certReqId then
      Except.error CMPerror.UnexpectedRequestID
    else
      match hash srv.certOut with
      | none => Except.error CMPerror.ErrorProcessingMsg
      | some digest =>
        if status.certHash ≠ digest then
          Except.error CMPerror.WrongCertHash
        else Except.ok V_CMP_PKIBODY_PKICONF

/-! ## Sample values used to evaluate the theorems on concrete inputs -/

def siSample : OSSL_CMP_PKISI :=
  { status := ASN1IntegerM.val 0, failInfo := none, statusString := [] }

def srvSample : SrvCtxM :=
  { pkiStatusOut := siSample, certOut := some 5, chainOut := [6]
    caPubsOut := [7], certReq := none, certReqId := 0, pollCount := 0
    checkAfterTime := 1, grantImplicitConfirm := false
    implicitConfirmGranted := false, sendError := false }

def srvSamplePoll : SrvCtxM :=
  { srvSample with pollCount := 1, certReqId := -1 }

def reqSample : ReqMsg :=
  { bodyType := V_CMP_PKIBODY_IR, implicitConfirm := false
    crmCertReqId := some 0 }

def ctxSample : CMPCtxM :=
  { unprotectedErrors := false, disableConfirm := false
    transactionID := some [3], recipNonce := none }

def repSample : RecvMsg :=
  { header := { protectionAlg := false, senderNonce := some [1]
                recipNonce := some [2], transactionID := some [3]
                generalInfo := [] }
    bodyType := V_CMP_PKIBODY_IP, status0 := CMP_PKISTATUS_accepted }

def repBadNonce : RecvMsg :=
  { header := { protectionAlg := true, senderNonce := some [9]
                recipNonce := none, transactionID := some [3]
                generalInfo := [] }
    bodyType := V_CMP_PKIBODY_IP, status0 := 0 }

def repUnprotected : RecvMsg :=
  { header := { protectionAlg := false, senderNonce := some [9]
                recipNonce := some [1], transactionID := some [3]
                generalInfo := [] }
    bodyType := V_CMP_PKIBODY_IP, status0 := CMP_PKISTATUS_accepted }

instance exceptDecEq {α β : Type} [DecidableEq α] [DecidableEq β] :
    DecidableEq (Except α β) := fun x y =>
  match x, y with
  | Except.ok a, Except.ok b =>
    if h : a = b then isTrue (by rw [h])
    else isFalse (by intro he; cases he; exact h rfl)
  | Except.ok _, Except.error _ => isFalse (by intro he; cases he)
  | Except.error _, Except.ok _ => isFalse (by intro he; cases he)
  | Except.error a, Except.error b =>
    if h : a = b then isTrue (by rw [h])
    else isFalse (by intro he; cases he; exact h rfl)

/-! # Theorems -/

/-- C9: an incoming certConf whose CertStatus list is empty (the client
rejected the certificate) still yields a PKICONF acknowledgement; the
rejection is only logged. -/
theorem process_certConf_empty_certstatus (srv : SrvCtxM)
    (hash : Option Nat → Option Nat) :
    process_certConf srv hash [] = Except.ok V_CMP_PKIBODY_PKICONF := rfl

/-- C8 counterexample: `ossl_cmp_statusinfo_new` with status `accepted` and a
nonzero fail_info mask produces a nonempty failInfo, refuting the claim that
the failInfo field is empty for accepted regardless of the mask passed in. -/
theorem statusinfo_new_accepted_failinfo_nonempty :
    (ossl_cmp_statusinfo_new CMP_PKISTATUS_accepted 1 none).failInfo ≠ none := by
  decide

/-- C8 amended: for a PKIStatusInfo built by `ossl_cmp_statusinfo_new` with
status accepted or grantedWithMods, failInfo is empty iff the caller's
fail_info mask has none of the bits 0..26 set (the constructor copies the
mask bits irrespective of the status). -/
theorem statusinfo_new_failinfo_empty_iff (status fail_info : Int)
    (text : Option String)
    (h : status = CMP_PKISTATUS_accepted ∨
      status = CMP_PKISTATUS_grantedWithMods) :
    (ossl_cmp_statusinfo_new status fail_info text).failInfo = none ↔
      (fail_info % 2 ^ (OSSL_CMP_PKIFAILUREINFO_MAX + 1)).toNat = 0 := by
  unfold ossl_cmp_statusinfo_new
  split <;> simp_all

theorem statusinfo_new_failinfo_empty_iff_witness :
    (ossl_cmp_statusinfo_new CMP_PKISTATUS_accepted 0 none).failInfo = none ↔
      ((0 : Int) % 2 ^ (OSSL_CMP_PKIFAILUREINFO_MAX + 1)).toNat = 0 :=
  statusinfo_new_failinfo_empty_iff CMP_PKISTATUS_accepted 0 none (Or.inl rfl)

/-- C10: `ossl_cmp_asn1_get_int` returns -1 when the ASN.1 integer cannot be
decoded and when the decoded value lies outside the int range, and an encoded
-1 is also returned as -1; the same -1 comes out of
`ossl_cmp_pkisi_get_pkistatus` for a NULL/undecodable status and for a stored
-1, so the legitimate value is indistinguishable from the error outcome. -/
theorem asn1_get_int_minus_one_ambiguous :
    ossl_cmp_asn1_get_int ASN1IntegerM.null = -1 ∧
    ossl_cmp_asn1_get_int ASN1IntegerM.undecodable = -1 ∧
    (∀ v : Int, v < INT_MIN ∨ INT_MAX < v →
      ossl_cmp_asn1_get_int (ASN1IntegerM.val v) = -1) ∧
    ossl_cmp_asn1_get_int (ASN1IntegerM.val (-1)) = -1 ∧
    ossl_cmp_pkisi_get_pkistatus none = -1 ∧
    ossl_cmp_pkisi_get_pkistatus
      (some { status := ASN1IntegerM.null, failInfo := none,
              statusString := [] }) = -1 ∧
    ossl_cmp_pkisi_get_pkistatus
      (some { status := ASN1IntegerM.undecodable, failInfo := none,
              statusString := [] }) = -1 ∧
    ossl_cmp_pkisi_get_pkistatus
      (some { status := ASN1IntegerM.val (-1), failInfo := none,
              statusString := [] }) = -1 := by
  refine ⟨rfl, rfl, ?_, by decide, rfl, rfl, rfl, by decide⟩
  intro v hv
  show (if v < INT_MIN then -1 else if v > INT_MAX then -1 else v) = -1
  simp only [INT_MIN, INT_MAX] at hv ⊢
  split
  · rfl
  · split
    · rfl
    · omega

theorem asn1_get_int_minus_one_ambiguous_witness :
    ossl_cmp_asn1_get_int (ASN1IntegerM.val 2147483648) = -1 :=
  asn1_get_int_minus_one_ambiguous.2.2.1 2147483648 (Or.inr (by decide))

/-- C3: the revocation transaction maps the received RP status so that
accepted, grantedWithMods, revocationWarning and revocationNotification give
distinct nonzero success codes determined by the status value, rejection
gives a distinct nonzero non-error outcome, waiting and keyUpdateWarning fail
with UNEXPECTED_PKISTATUS, and any other status fails with
UNKNOWN_PKISTATUS. -/
theorem doRevocationRequestSeq_status_mapping :
    CMP_doRevocationRequestSeq_statusMap CMP_PKISTATUS_accepted =
      Except.ok 1 ∧
    CMP_doRevocationRequestSeq_statusMap CMP_PKISTATUS_grantedWithMods =
      Except.ok 2 ∧
    CMP_doRevocationRequestSeq_statusMap CMP_PKISTATUS_revocationWarning =
      Except.ok 5 ∧
    CMP_doRevocationRequestSeq_statusMap CMP_PKISTATUS_revocationNotification =
      Except.ok 6 ∧
    CMP_doRevocationRequestSeq_statusMap CMP_PKISTATUS_rejection =
      Except.ok 3 ∧
    (∀ s ∈ ([0, 1, 2, 4, 5] : List Int), ∀ t ∈ ([0, 1, 2, 4, 5] : List Int),
      CMP_doRevocationRequestSeq_statusMap s =
        CMP_doRevocationRequestSeq_statusMap t → s = t) ∧
    (∀ s ∈ ([0, 1, 2, 4, 5] : List Int),
      CMP_doRevocationRequestSeq_statusMap s ≠ Except.ok 0 ∧
      CMP_doRevocationRequestSeq_statusMap s ≠
        Except.error CMPerror.UnexpectedPKIStatus ∧
      CMP_doRevocationRequestSeq_statusMap s ≠
        Except.error CMPerror.UnknownPKIStatus) ∧
    CMP_doRevocationRequestSeq_statusMap CMP_PKISTATUS_waiting =
      Except.error CMPerror.UnexpectedPKIStatus ∧
    CMP_doRevocationRequestSeq_statusMap CMP_PKISTATUS_keyUpdateWarning =
      Except.error CMPerror.UnexpectedPKIStatus ∧
    (∀ s : Int, ¬(s = 0 ∨ s = 1 ∨ s = 2 ∨ s = 3 ∨ s = 4 ∨ s = 5 ∨ s = 6) →
      CMP_doRevocationRequestSeq_statusMap s =
        Except.error CMPerror.UnknownPKIStatus) := by
  refine ⟨by decide, by decide, by decide, by decide, by decide, by decide,
    by decide, by decide, by decide, ?_⟩
  intro s hs
  unfold CMP_doRevocationRequestSeq_statusMap
  simp only [CMP_PKISTATUS_accepted, CMP_PKISTATUS_grantedWithMods,
    CMP_PKISTATUS_rejection, CMP_PKISTATUS_revocationWarning,
    CMP_PKISTATUS_revocationNotification, CMP_PKISTATUS_waiting,
    CMP_PKISTATUS_keyUpdateWarning]
  rw [if_neg (by omega), if_neg (by omega)]

theorem doRevocationRequestSeq_status_mapping_witness :
    CMP_doRevocationRequestSeq_statusMap 7 =
      Except.error CMPerror.UnknownPKIStatus :=
  doRevocationRequestSeq_status_mapping.2.2.2.2.2.2.2.2.2 7 (by decide)

/-- C7: for a certConf containing a CertStatus entry, a certReqId that does
not echo the stored one fails with UNEXPECTED_REQUEST_ID; otherwise a
certHash differing from the hash recomputed over the server's certOut fails
with WRONG_CERT_HASH; when both match, a PKICONF is returned. -/
theorem process_certConf_checks (srv : SrvCtxM)
    (hash : Option Nat → Option Nat) (status : CertStatusM)
    (rest : List CertStatusM) :
    (ossl_cmp_asn1_get_int status.certReqId ≠ srv.certReqId →
      process_certConf srv hash (status :: rest) =
        Except.error CMPerror.UnexpectedRequestID) ∧
    (∀ digest, ossl_cmp_asn1_get_int status.certReqId = srv.certReqId →
      hash srv.certOut = some digest → status.certHash ≠ digest →
      process_certConf srv hash (status :: rest) =
        Except.error CMPerror.WrongCertHash) ∧
    (∀ digest, ossl_cmp_asn1_get_int status.certReqId = srv.certReqId →
      hash srv.certOut = some digest → status.certHash = digest →
      process_certConf srv hash (status :: rest) =
        Except.ok V_CMP_PKIBODY_PKICONF) := by
  refine ⟨fun h => ?_, fun d h1 h2 h3 => ?_, fun d h1 h2 h3 => ?_⟩ <;>
    simp [process_certConf, *]

theorem process_certConf_checks_witness :
    process_certConf srvSample (fun c => c)
      [{ certReqId := ASN1IntegerM.val 0, certHash := 5, statusInfo := none }] =
      Except.ok V_CMP_PKIBODY_PKICONF :=
  (process_certConf_checks srvSample (fun c => c)
    { certReqId := ASN1IntegerM.val 0, certHash := 5, statusInfo := none }
    []).2.2 5 (by decide) rfl rfl

/-- C6: for an ir/cr/p10cr/kur with verifiable proof of possession, the
server decrements a positive pollCount, retains a copy of the request and
answers with PKIStatus waiting; with pollCount 0 it answers with certOut,
chainOut, caPubsOut and a copy of pkiStatusOut. -/
theorem process_cert_request_poll_or_issue (srv : SrvCtxM) (certReq : ReqMsg)
    (rid : Int)
    (hbt : certReq.bodyType = V_CMP_PKIBODY_IR ∨
      certReq.bodyType = V_CMP_PKIBODY_CR ∨
      certReq.bodyType = V_CMP_PKIBODY_P10CR ∨
      certReq.bodyType = V_CMP_PKIBODY_KUR)
    (hid : (if certReq.bodyType = V_CMP_PKIBODY_P10CR then
      some OSSL_CMP_CERTREQID else certReq.crmCertReqId) = some rid) :
    (0 < srv.pollCount →
      ∃ srv2 rep, process_cert_request srv certReq true = some (srv2, rep) ∧
        srv2.pollCount = srv.pollCount - 1 ∧ srv2.certReq = some certReq ∧
        rep.si.status = ASN1IntegerM.val CMP_PKISTATUS_waiting ∧
        rep.si.failInfo = none) ∧
    (srv.pollCount = 0 →
      ∃ srv2 rep, process_cert_request srv certReq true = some (srv2, rep) ∧
        rep.certOut = srv.certOut ∧ rep.chainOut = srv.chainOut ∧
        rep.caPubs = srv.caPubsOut ∧ rep.si = srv.pkiStatusOut) := by
  constructor
  · intro hpc
    have hpc' : ¬srv.pollCount = 0 := by omega
    rcases hbt with h | h | h | h <;>
      simp only [process_cert_request, h, V_CMP_PKIBODY_IR, V_CMP_PKIBODY_CR,
        V_CMP_PKIBODY_P10CR, V_CMP_PKIBODY_KUR] at hid ⊢ <;>
      simp_all [ossl_cmp_statusinfo_new] <;>
      exact ⟨_, _, ⟨rfl, rfl⟩, rfl, rfl, rfl,
        by simp [← hid, OSSL_CMP_CERTREQID]⟩
  · intro hpc
    rcases hbt with h | h | h | h <;>
      simp only [process_cert_request, h, V_CMP_PKIBODY_IR, V_CMP_PKIBODY_CR,
        V_CMP_PKIBODY_P10CR, V_CMP_PKIBODY_KUR] at hid ⊢ <;>
      simp_all <;>
      exact ⟨_, _, ⟨rfl, rfl⟩, rfl, rfl, rfl, rfl⟩

theorem process_cert_request_poll_or_issue_witness :
    ∃ srv2 rep,
      process_cert_request srvSamplePoll reqSample true = some (srv2, rep) ∧
      srv2.pollCount = srvSamplePoll.pollCount - 1 ∧
      srv2.certReq = some reqSample ∧
      rep.si.status = ASN1IntegerM.val CMP_PKISTATUS_waiting ∧
      rep.si.failInfo = none :=
  (process_cert_request_poll_or_issue srvSamplePoll reqSample 0
    (Or.inl rfl) (by decide)).1 (by decide)

/-- C5: after a certificate has been extracted from a (non-waiting) cert
response, the client performs the certConf/PKIconf exchange iff neither
`ctx.disableConfirm` is set nor the response carries the implicitConfirm
ITAV in its generalInfo; when either holds, no certConf exchange occurs. -/
theorem cert_response_certConf_iff (ctx : CMPCtxM) (resp : RecvMsg)
    (pollResult : Option RecvMsg) (extractCert : RecvMsg → Option Nat)
    (sendCertConfOk : Bool) (cert : Nat)
    (hw : resp.status0 ≠ CMP_PKISTATUS_waiting)
    (hc : extractCert resp = some cert) :
    ((ctx.disableConfirm = false ∧
        CMP_PKIMESSAGE_check_implicitConfirm resp = false) →
      cert_response ctx resp pollResult extractCert sendCertConfOk =
        (if sendCertConfOk then some (true, cert) else none)) ∧
    ((ctx.disableConfirm = true ∨
        CMP_PKIMESSAGE_check_implicitConfirm resp = true) →
      cert_response ctx resp pollResult extractCert sendCertConfOk =
        some (false, cert)) := by
  constructor
  · intro hcf
    simp [cert_response, hw, hc, hcf.1, hcf.2]
  · intro hcf
    rcases hcf with hcf | hcf <;> simp [cert_response, hw, hc, hcf]

theorem cert_response_certConf_iff_witness :
    cert_response ctxSample repSample none (fun _ => some 9) true =
      some (true, 9) :=
  (cert_response_certConf_iff ctxSample repSample none (fun _ => some 9)
    true 9 (by decide) rfl).1 ⟨rfl, rfl⟩

/-- C1: an unprotected response passes the protection stage of
`send_receive_check` only under the exception rules - `ctx.unprotectedErrors`
together with an ERROR body, a PKICONF body, an RP body with rejection
status, or an IP/CP/KUP body with overall rejection status; in every other
unprotected case the call fails with ERROR_VALIDATING_PROTECTION. -/
theorem send_receive_check_unprotected_exceptions
    (ctx : CMPCtxM) (reqSenderNonce : Option (List Nat)) (validOk : Bool)
    (rep : RecvMsg) (type_rep : Nat)
    (hunprot : rep.header.protectionAlg = false) :
    (∀ ctx2, send_receive_check ctx reqSenderNonce validOk rep type_rep =
        Except.ok ctx2 →
      ctx.unprotectedErrors = true ∧
        (rep.bodyType = V_CMP_PKIBODY_ERROR ∨
         rep.bodyType = V_CMP_PKIBODY_PKICONF ∨
         (rep.bodyType = V_CMP_PKIBODY_RP ∧
           rep.status0 = CMP_PKISTATUS_rejection) ∨
         ((rep.bodyType = V_CMP_PKIBODY_IP ∨ rep.bodyType = V_CMP_PKIBODY_CP ∨
           rep.bodyType = V_CMP_PKIBODY_KUP) ∧
           rep.status0 = CMP_PKISTATUS_rejection))) ∧
    (¬(ctx.unprotectedErrors = true ∧
        (rep.bodyType = V_CMP_PKIBODY_ERROR ∨
         rep.bodyType = V_CMP_PKIBODY_PKICONF ∨
         (rep.bodyType = V_CMP_PKIBODY_RP ∧
           rep.status0 = CMP_PKISTATUS_rejection) ∨
         ((rep.bodyType = V_CMP_PKIBODY_IP ∨ rep.bodyType = V_CMP_PKIBODY_CP ∨
           rep.bodyType = V_CMP_PKIBODY_KUP) ∧
           rep.status0 = CMP_PKISTATUS_rejection))) →
      send_receive_check ctx reqSenderNonce validOk rep type_rep =
        Except.error CMPerror.ErrorValidatingProtection) := by
  have key : unprotectedExceptionClient ctx rep type_rep = true →
      ctx.unprotectedErrors = true ∧
        (rep.bodyType = V_CMP_PKIBODY_ERROR ∨
         rep.bodyType = V_CMP_PKIBODY_PKICONF ∨
         (rep.bodyType = V_CMP_PKIBODY_RP ∧
           rep.status0 = CMP_PKISTATUS_rejection) ∨
         ((rep.bodyType = V_CMP_PKIBODY_IP ∨ rep.bodyType = V_CMP_PKIBODY_CP ∨
           rep.bodyType = V_CMP_PKIBODY_KUP) ∧
           rep.status0 = CMP_PKISTATUS_rejection)) := by
    intro h
    simp only [unprotectedExceptionClient, Bool.and_eq_true, Bool.or_eq_true,
      beq_iff_eq] at h
    obtain ⟨hu, hd⟩ := h
    refine ⟨hu, ?_⟩
    tauto
  constructor
  · intro ctx2 hok
    simp only [send_receive_check, hunprot] at hok
    by_cases he : unprotectedExceptionClient ctx rep type_rep = true
    · exact key he
    · simp [he] at hok
  · intro hnp
    have he : unprotectedExceptionClient ctx rep type_rep = false := by
      cases hb : unprotectedExceptionClient ctx rep type_rep
      · rfl
      · exact absurd (key hb) hnp
    simp [send_receive_check, hunprot, he]

theorem send_receive_check_unprotected_exceptions_witness :
    send_receive_check ctxSample (some [1]) true repUnprotected
      V_CMP_PKIBODY_IP = Except.error CMPerror.ErrorValidatingProtection :=
  (send_receive_check_unprotected_exceptions ctxSample (some [1]) true
    repUnprotected V_CMP_PKIBODY_IP rfl).2 (by decide)

/-- C2: when the sent request carried a senderNonce, a response whose
recipNonce is absent or different fails with NONCES_DO_NOT_MATCH (once the
protection stage is passed); on successful validation the response's
senderNonce is stored into `ctx.recipNonce` for the next outbound message. -/
theorem send_receive_check_nonce_discipline
    (ctx : CMPCtxM) (reqSenderNonce : Option (List Nat)) (validOk : Bool)
    (rep : RecvMsg) (type_rep : Nat) :
    (∀ sn, reqSenderNonce = some sn → rep.header.recipNonce ≠ some sn →
      ((rep.header.protectionAlg = true ∧ validOk = true) ∨
       (rep.header.protectionAlg = false ∧
         unprotectedExceptionClient ctx rep type_rep = true)) →
      send_receive_check ctx reqSenderNonce validOk rep type_rep =
        Except.error CMPerror.NoncesDoNotMatch) ∧
    (∀ ctx2, send_receive_check ctx reqSenderNonce validOk rep type_rep =
        Except.ok ctx2 → ctx2.recipNonce = rep.header.senderNonce) := by
  constructor
  · intro sn hsn hne hprot
    rcases hprot with ⟨h1, h2⟩ | ⟨h1, h2⟩ <;>
      simp [send_receive_check, sendReceiveCheckRest, h1, h2, hsn, hne]
  · intro ctx2 hok
    unfold send_receive_check sendReceiveCheckRest sendReceiveCheckTid
      sendReceiveCheckBody at hok
    repeat' split at hok
    all_goals cases hok
    all_goals rfl

theorem send_receive_check_nonce_discipline_witness :
    send_receive_check ctxSample (some [1]) true repBadNonce
      V_CMP_PKIBODY_IP = Except.error CMPerror.NoncesDoNotMatch :=
  (send_receive_check_nonce_discipline ctxSample (some [1]) true repBadNonce
    V_CMP_PKIBODY_IP).1 [1] rfl (by decide) (Or.inl ⟨rfl, rfl⟩)

theorem pollForResponse_loop_sum_le (maxPollTime : Int) (hM : maxPollTime ≠ 0) :
    ∀ replies : List PollReply,
      (∀ a, PollReply.pollRep a ∈ replies → 0 ≤ a) →
      ∀ left : Int, 0 ≤ left →
        ((pollForResponse_loop maxPollTime left replies).2).sum ≤ left := by
  intro replies
  induction replies with
  | nil => intro _ left hl; simpa [pollForResponse_loop] using hl
  | cons head rest ih =>
    intro hc left hl
    cases head with
    | finalResp => simpa [pollForResponse_loop] using hl
    | pollRep c =>
      have hc0 : 0 ≤ c := hc c (List.mem_cons_self _ _)
      have hcr : ∀ a, PollReply.pollRep a ∈ rest → 0 ≤ a :=
        fun a ha => hc a (List.mem_cons_of_mem _ ha)
      simp only [pollForResponse_loop, if_pos hM]
      by_cases h0 : left = 0
      · simp [h0]
      · rw [if_neg h0]
        by_cases hgt : left > c
        · rw [if_pos hgt]
          have hrec := ih hcr (left - c) (by omega)
          show (c :: (pollForResponse_loop maxPollTime (left - c) rest).2).sum
            ≤ left
          simp only [List.sum_cons]
          omega
        · rw [if_neg hgt]
          have hrec := ih hcr 0 le_rfl
          show (left :: (pollForResponse_loop maxPollTime 0 rest).2).sum ≤ left
          simp only [List.sum_cons]
          omega

theorem pollForResponse_loop_zero :
    ∀ (replies : List PollReply) (left : Int),
      pollForResponse_loop 0 left replies =
        (rawOutcome replies, rawCheckAfters replies) := by
  intro replies
  induction replies with
  | nil => intro left; rfl
  | cons head rest ih =>
    intro left
    cases head with
    | finalResp => rfl
    | pollRep c =>
      simp only [pollForResponse_loop, rawOutcome, rawCheckAfters]
      rw [if_neg (by decide), ih left]

/-- C4: with a positive total timeout, the accumulated sleep amounts of the
polling loop never exceed it; a checkAfter that reaches or exceeds the
remaining budget truncates the sleep to that budget and zeroes it, so exactly
one more PollReq is attempted, after which a further PollRep is an error
while a final response succeeds; a total timeout of 0 disables the
accounting, the client sleeping every raw checkAfter. -/
theorem pollForResponse_totalTimeout (maxPollTime left c : Int)
    (replies rest : List PollReply) :
    (0 < maxPollTime → (∀ a, PollReply.pollRep a ∈ replies → 0 ≤ a) →
      ((pollForResponse maxPollTime replies).2).sum ≤ maxPollTime) ∧
    (maxPollTime ≠ 0 → 0 < left → left ≤ c →
      pollForResponse_loop maxPollTime left (PollReply.pollRep c :: rest) =
        ((pollForResponse_loop maxPollTime 0 rest).1,
         left :: (pollForResponse_loop maxPollTime 0 rest).2)) ∧
    (maxPollTime ≠ 0 →
      pollForResponse_loop maxPollTime 0 (PollReply.pollRep c :: rest) =
        (false, [])) ∧
    pollForResponse_loop maxPollTime 0 (PollReply.finalResp :: rest) =
      (true, []) ∧
    pollForResponse 0 replies = (rawOutcome replies, rawCheckAfters replies) := by
  refine ⟨?_, ?_, ?_, rfl, pollForResponse_loop_zero replies 0⟩
  · intro hM hc
    exact pollForResponse_loop_sum_le maxPollTime (by omega) replies hc
      maxPollTime (by omega)
  · intro hM h0 hlc
    simp only [pollForResponse_loop]
    rw [if_pos hM, if_neg (by omega), if_neg (by omega)]
  · intro hM
    simp [pollForResponse_loop, hM]

theorem pollForResponse_totalTimeout_witness :
    ((pollForResponse 5 [PollReply.pollRep 3, PollReply.pollRep 3,
        PollReply.finalResp]).2).sum ≤ 5 :=
  (pollForResponse_totalTimeout 5 1 3
    [PollReply.pollRep 3, PollReply.pollRep 3, PollReply.finalResp] []).1
    (by decide) (by intro a ha; simp [List.mem_cons] at ha; omega)
